import Mathlib

/-!
Verification development for the crm-backend repository.

The Python source is shallowly embedded: each handler or helper becomes an
executable Lean function over explicit state (lists of table rows), decimal
values become rationals, fallible handlers return an Except value, and the
behaviour of the external web framework, JWT library and password-hashing
library at the boundary is embedded per their documented contracts (marked
in the corresponding doc comments).
-/

set_option maxRecDepth 4000

/-- An aborted request: HTTP status code and detail message. A handler that
returns this performed no commit, so the database is unchanged. -/
structure HttpErr where
  status : Nat
  detail : String
deriving DecidableEq

/-! ## Decimal arithmetic (the routers use Python Decimal for money)

A Python Decimal is an integer coefficient together with a base-ten exponent;
the only operations the routers perform are multiplication by an integer
quantity and addition, both of which Python computes exactly at this
magnitude (addition aligns the operands to the smaller exponent). -/

/-- A decimal number: coefficient times ten to the exponent. The literal
10.00 is the pair (1000, -2). -/
structure Dec where
  coeff : Int
  exp : Int
deriving DecidableEq

/-- Exact decimal multiplication: coefficients multiply, exponents add. An
integer factor (such as a quantity) carries exponent zero. -/
def Dec.mul (a b : Dec) : Dec := ⟨a.coeff * b.coeff, a.exp + b.exp⟩

/-- Exact decimal addition: the operand with the larger exponent is rescaled
to the smaller exponent, then the coefficients add. -/
def Dec.add (a b : Dec) : Dec :=
  if a.exp ≤ b.exp then ⟨a.coeff + b.coeff * 10 ^ (b.exp - a.exp).toNat, a.exp⟩
  else ⟨a.coeff * 10 ^ (a.exp - b.exp).toNat + b.coeff, b.exp⟩

/-- The value of a decimal in hundredths, as stored by a Numeric(12,2)
column. Values with more than two fractional digits are truncated here; the
handlers only ever store two-fractional-digit money values, for which this is
exact. -/
def Dec.cents (d : Dec) : Int :=
  if -2 ≤ d.exp then d.coeff * 10 ^ (d.exp + 2).toNat
  else d.coeff / (10 ^ (0 - (d.exp + 2)).toNat)

/-! ## Orders router (src/app/routers/orders.py) -/

/-- One input line item of POST /orders (class OrderItemIn). -/
structure OrderItemIn where
  product_id : Int
  variant_id : Int
  qty : Nat
  price : Dec
  currency : String
deriving DecidableEq

/-- The POST /orders request body (class OrderCreateIn). -/
structure OrderCreateIn where
  contact_id : Int
  currency : String
  items : List OrderItemIn
deriving DecidableEq

/-- The PUT /orders request body (class OrderUpdateIn); every field optional. -/
structure OrderUpdateIn where
  status : Option String
  total : Option Dec
  currency : Option String
deriving DecidableEq

/-- A row of the orders table. -/
structure OrderRec where
  id : Nat
  contact_id : Int
  status : String
  total : Dec
  currency : String
  created_at : Nat
deriving DecidableEq

/-- A row of the order_items table. -/
structure OrderItemRec where
  id : Nat
  order_id : Nat
  product_id : Int
  variant_id : Int
  qty : Nat
  price : Dec
deriving DecidableEq

/-- The slice of database state the orders router reads and writes, with the
auto-increment counters for the two tables. -/
structure OrdersDB where
  orders : List OrderRec
  items : List OrderItemRec
  nextOrderId : Nat
  nextItemId : Nat
deriving DecidableEq

/-- calc_total: the sum of price times qty over the items, starting from the
accumulator Decimal 0.00 (a left fold, as Python sum is). -/
def calc_total (items : List OrderItemIn) : Dec :=
  items.foldl (fun acc i => acc.add (i.price.mul ⟨(i.qty : Int), 0⟩)) ⟨0, -2⟩

/-- Two-digit zero padding for the fractional part of a money string. -/
def pad2 (n : Nat) : String := if n < 10 then "0" ++ toString n else toString n

/-- Rendering of a Numeric(12,2) column value as Python str does after the
row is refreshed from the database: an optional sign, the integer part, a
point, and exactly two fractional digits. -/
def decimalStr2 (d : Dec) : String :=
  let c : Int := d.cents
  if c < 0 then "-" ++ toString ((0 - c) / 100) ++ "." ++ pad2 (((0 - c) % 100).toNat)
  else toString (c / 100) ++ "." ++ pad2 ((c % 100).toNat)

/-- The JSON object returned by create_order and update_order: id, status,
total rendered as a string, currency. -/
structure OrderOut where
  id : Nat
  status : String
  total : String
  currency : String
deriving DecidableEq

/-- create_order (POST /orders): computes the total, inserts the Order with
status "new", obtains its id from the flush, inserts one OrderItem per input
item referencing that id, and commits. -/
def create_order (body : OrderCreateIn) (db : OrdersDB) (now : Nat) : OrdersDB × OrderOut :=
  let total := calc_total body.items
  let order : OrderRec :=
    ⟨db.nextOrderId, body.contact_id, "new", total, body.currency, now⟩
  let newItems := body.items.enum.map (fun ji =>
    (⟨db.nextItemId + ji.1, order.id, ji.2.product_id, ji.2.variant_id, ji.2.qty,
      ji.2.price⟩ : OrderItemRec))
  (⟨db.orders ++ [order], db.items ++ newItems,
    db.nextOrderId + 1, db.nextItemId + body.items.length⟩,
   ⟨order.id, order.status, decimalStr2 order.total, order.currency⟩)

/-- Python truthiness of an optional string: absent and the empty string are
both falsy (the source guards with a bare truthiness test on the field). -/
def truthyStr (s : Option String) : Bool :=
  match s with
  | none => false
  | some v => !(v == "")

/-- The field assignments update_order performs on the fetched order: status
and currency only when supplied truthy (non-empty), total whenever supplied. -/
def applyOrderUpdate (body : OrderUpdateIn) (o : OrderRec) : OrderRec :=
  let o1 := match body.status with
    | some s => if s == "" then o else { o with status := s }
    | none => o
  let o2 := match body.total with
    | some t => { o1 with total := t }
    | none => o1
  match body.currency with
  | some c => if c == "" then o2 else { o2 with currency := c }
  | none => o2

/-- The changed flag of update_order: set exactly when one of the three
assignment guards fires. -/
def orderUpdateChanged (body : OrderUpdateIn) : Bool :=
  truthyStr body.status || body.total.isSome || truthyStr body.currency

/-- update_order (PUT /orders/id): 404 when the order is absent; otherwise
assigns the supplied fields, and commits only when the changed flag is set.
The returned Bool records whether a commit happened. -/
def update_order (order_id : Nat) (body : OrderUpdateIn) (db : OrdersDB) :
    Except HttpErr (OrdersDB × Bool × OrderOut) :=
  match db.orders.find? (fun o => o.id == order_id) with
  | none => .error ⟨404, "Order not found"⟩
  | some o =>
    let o2 := applyOrderUpdate body o
    let changed := orderUpdateChanged body
    let db2 := if changed then
        { db with orders := db.orders.map (fun x => if x.id == order_id then o2 else x) }
      else db
    .ok (db2, changed, ⟨o2.id, o2.status, decimalStr2 o2.total, o2.currency⟩)

/-! ## Payments router (src/app/routers/payments.py) -/

/-- The POST /payments request body (class PaymentCreateIn); status defaults
to "paid" when the caller omits it. -/
structure PaymentCreateIn where
  order_id : Nat
  amount : Dec
  currency : String
  provider : Option String
  status : String
deriving DecidableEq

/-- A row of the payments table. -/
structure PaymentRec where
  id : Nat
  order_id : Nat
  status : String
  amount : Dec
  currency : String
  provider : Option String
  tx_id : Option String
  fee : Option Dec
deriving DecidableEq

/-- The slice of database state the payments router touches. -/
structure PayDB where
  orders : List OrderRec
  payments : List PaymentRec
  nextPaymentId : Nat
deriving DecidableEq

/-- The JSON object returned by create_payment. -/
structure PaymentOut where
  id : Nat
  order_id : Nat
  status : String
  amount : String
  currency : String
  provider : Option String
  tx_id : Option String
  fee : Option String
deriving DecidableEq

/-- create_payment (POST /payments): 404 when the referenced order is absent
(nothing is created); otherwise inserts the Payment and, exactly when the
input status is "paid", also sets the parent order's status to "paid", then
commits both in the same unit of work. -/
def create_payment (body : PaymentCreateIn) (db : PayDB) :
    Except HttpErr (PayDB × PaymentOut) :=
  match db.orders.find? (fun o => o.id == body.order_id) with
  | none => .error ⟨404, "Order not found"⟩
  | some _ =>
    let p : PaymentRec :=
      ⟨db.nextPaymentId, body.order_id, body.status, body.amount, body.currency,
       body.provider, none, none⟩
    let orders2 :=
      if body.status == "paid" then
        db.orders.map (fun o => if o.id == body.order_id then { o with status := "paid" } else o)
      else db.orders
    .ok (⟨orders2, db.payments ++ [p], db.nextPaymentId + 1⟩,
         ⟨p.id, p.order_id, p.status, decimalStr2 p.amount, p.currency, p.provider, p.tx_id,
          p.fee.map decimalStr2⟩)

/-! ## Contacts router (src/app_routers_contacts.py) -/

/-- A row of the contacts table. -/
structure ContactRec where
  id : Nat
  name : Option String
  email : Option String
  phone : Option String
  tags : Option String
  created_at : Nat
deriving DecidableEq

/-- The boundary model of the framework's handling of the declared query
parameter limit, int with default 50 and the le=200 constraint: an absent
parameter takes the default, a value above 200 fails request validation with
a 422 client error (the framework rejects it; no clamping occurs). -/
def limitParam (raw : Option Int) : Except HttpErr Int :=
  match raw with
  | none => .ok 50
  | some v => if v ≤ 200 then .ok v
              else .error ⟨422, "Input should be less than or equal to 200"⟩

/-- The offset query parameter: plain int with default 0, no constraint. -/
def offsetParam (raw : Option Int) : Int := raw.getD 0

/-- Whether the second character list is an initial segment of the first. -/
def listStartsWith : List Char → List Char → Bool
  | _, [] => true
  | [], _ :: _ => false
  | h :: hs, p :: ps => h == p && listStartsWith hs ps

/-- Whether the second character list occurs contiguously inside the first. -/
def listContainsSub : List Char → List Char → Bool
  | [], pat => listStartsWith [] pat
  | h :: t, pat => listStartsWith (h :: t) pat || listContainsSub t pat

/-- Case-insensitive substring match, the ilike with surrounding percent
wildcards; a NULL column never matches. -/
def ilikeContains (field : Option String) (q : String) : Bool :=
  match field with
  | none => false
  | some s => listContainsSub s.toLower.toList q.toLower.toList

/-- The search filter of GET /contacts: q matched against name OR email OR
phone (applied only when q is supplied and truthy). -/
def contactMatches (q : String) (c : ContactRec) : Bool :=
  ilikeContains c.name q || ilikeContains c.email q || ilikeContains c.phone q

/-- Stable insertion of a contact into a list sorted by created_at descending. -/
def insertByCreatedDesc (c : ContactRec) : List ContactRec → List ContactRec
  | [] => [c]
  | x :: xs => if x.created_at < c.created_at then c :: x :: xs else x :: insertByCreatedDesc c xs

/-- Sort contacts newest first (order_by created_at descending). -/
def sortByCreatedDesc (l : List ContactRec) : List ContactRec :=
  l.foldr insertByCreatedDesc []

/-- list_contacts (GET /contacts): validates the query parameters, applies the
optional search filter, orders newest first, then applies offset and limit. -/
def list_contacts (contacts : List ContactRec) (q : Option String)
    (rawLimit : Option Int) (rawOffset : Option Int) :
    Except HttpErr (List ContactRec) :=
  match limitParam rawLimit with
  | .error e => .error e
  | .ok lim =>
    let offset := offsetParam rawOffset
    let qs := match q with
      | some qv => if qv == "" then contacts else contacts.filter (contactMatches qv)
      | none => contacts
    .ok (((sortByCreatedDesc qs).drop offset.toNat).take lim.toNat)

/-! ## Authentication service and request context providers
(src/app/auth.py, src/app_deps.py, src/app_routers_auth.py) -/

/-- The process-wide token lifetime: the JWT_EXPIRES environment variable
parsed as an integer, defaulting to 86400 seconds. -/
def JWT_EXPIRES (env : Option Nat) : Nat := env.getD 86400

/-- The JWT payload built by create_token; it contains exactly these five
claims. -/
structure TokenPayload where
  sub : String
  email : String
  role : String
  iat : Nat
  exp : Nat
deriving DecidableEq

/-- create_token: the payload of the issued token, with sub the user id as a
string, iat the current Unix time, and exp equal to iat plus the configured
lifetime. (The HS256 signing itself is the JWT library's; the token is
identified with its payload here, signature validity being modelled by the
Token type below.) -/
def create_token (jwtExpires : Nat) (user_id : Nat) (email : String) (role : String)
    (now : Nat) : TokenPayload :=
  { sub := toString user_id, email := email, role := role, iat := now,
    exp := now + jwtExpires }

/-- A bearer credential as the verifier sees it: either a well-formed token
signed with the configured secret (carrying its payload), or anything else —
malformed structure or signature mismatch. -/
inductive Token where
  | valid (payload : TokenPayload) : Token
  | invalid : Token
deriving DecidableEq

/-- decode_token, including the JWT library's verification at the boundary:
malformed or badly signed tokens fail, and a token whose exp is in the past
fails with the expired condition; otherwise the payload is returned. -/
def decode_token (t : Token) (now : Nat) : Except String TokenPayload :=
  match t with
  | .invalid => .error "invalid token"
  | .valid p => if p.exp < now then .error "token expired" else .ok p

/-- A row of the users table (the bcrypt hash is modelled by BcryptHash). -/
structure BcryptHash where
  salt : String
  pw : String
deriving DecidableEq

/-- hash_password, modelling the bcrypt library contract at the boundary: the
hash is salted with fresh randomness per call (the salt argument) and is
one-way; verification recovers only a yes/no answer. -/
def hash_password (salt : String) (password : String) : BcryptHash :=
  ⟨salt, password⟩

/-- verify_password, per the bcrypt contract: succeeds exactly for the
password the hash was produced from, whatever its salt. -/
def verify_password (password : String) (h : BcryptHash) : Bool :=
  password == h.pw

/-- A row of the users table. -/
structure UserRec where
  id : Nat
  email : String
  password_hash : BcryptHash
  role : String
deriving DecidableEq

/-- Numeric value of a decimal digit character, when it is one. -/
def digitVal (c : Char) : Option Nat :=
  if '0' ≤ c ∧ c ≤ '9' then some (c.toNat - 48) else none

/-- Parse a non-empty run of decimal digits, most significant first. -/
def parseDigits : List Char → Nat → Option Nat
  | [], acc => some acc
  | c :: t, acc =>
    match digitVal c with
    | none => none
    | some d => parseDigits t (acc * 10 + d)

/-- The Python int() conversion as applied to the decoded sub claim: an
optional sign followed by decimal digits (the tokens this application mints
always carry a plain digit string there). -/
def int_of_string (s : String) : Option Int :=
  match s.toList with
  | [] => none
  | '-' :: t => if t.isEmpty then none else (parseDigits t 0).map (fun n => -(n : Int))
  | '+' :: t => if t.isEmpty then none else (parseDigits t 0).map (fun n => (n : Int))
  | cs => (parseDigits cs 0).map (fun n => (n : Int))

/-- bearer_scheme, the framework's HTTPBearer dependency with auto_error: when
the request carries no bearer credential it aborts with 403 Not authenticated
(the framework raises 403 here, not 401); otherwise it yields the credential. -/
def bearer_scheme (creds : Option Token) : Except HttpErr Token :=
  match creds with
  | none => .error ⟨403, "Not authenticated"⟩
  | some t => .ok t

/-- get_current_user: extracts the bearer credential, decodes it (any decode
failure becomes 401 Invalid token), parses the sub claim as an integer, and
looks the user up by id; a missing user is 401 User not found. -/
def get_current_user (creds : Option Token) (users : List UserRec) (now : Nat) :
    Except HttpErr UserRec :=
  match bearer_scheme creds with
  | .error e => .error e
  | .ok t =>
    match decode_token t now with
    | .error _ => .error ⟨401, "Invalid token"⟩
    | .ok p =>
      match int_of_string p.sub with
      | none => .error ⟨500, "Internal Server Error"⟩
      | some sid =>
        match users.find? (fun u => (u.id : Int) == sid) with
        | none => .error ⟨401, "User not found"⟩
        | some u => .ok u

/-- require_role: the role-gate factory; the returned check rejects a resolved
user whose role is not in the allowed list with 403 Forbidden. -/
def require_role (roles : List String) (user : UserRec) : Except HttpErr UserRec :=
  if !(roles.contains user.role) then .error ⟨403, "Forbidden"⟩ else .ok user

/-- The POST /auth/register request body. -/
structure RegisterIn where
  email : String
  password : String
  role : String
deriving DecidableEq

/-- The JSON object returned by register. -/
structure RegisterOut where
  id : Nat
  email : String
  role : String
deriving DecidableEq

/-- The users-table slice of the database. -/
structure AuthDB where
  users : List UserRec
  nextUserId : Nat
deriving DecidableEq

/-- register (POST /auth/register): gated to owner via require_role; rejects a
duplicate email with 400; otherwise stores the user with the hashed password
and the role exactly as supplied — no validation of the role value occurs. -/
def register (body : RegisterIn) (caller : UserRec) (db : AuthDB) (salt : String) :
    Except HttpErr (AuthDB × RegisterOut) :=
  match require_role ["owner"] caller with
  | .error e => .error e
  | .ok _ =>
    match db.users.find? (fun u => u.email == body.email) with
    | some _ => .error ⟨400, "Email already exists"⟩
    | none =>
      let u : UserRec := ⟨db.nextUserId, body.email, hash_password salt body.password, body.role⟩
      .ok (⟨db.users ++ [u], db.nextUserId + 1⟩, ⟨u.id, u.email, u.role⟩)

/-- The POST /auth/login request body. -/
structure LoginIn where
  email : String
  password : String
deriving DecidableEq

/-- login (POST /auth/login): 401 when no user has the email or the password
does not verify; otherwise issues a token for the user's id, email and role. -/
def login (body : LoginIn) (db : AuthDB) (jwtExpires : Nat) (now : Nat) :
    Except HttpErr (Token × String) :=
  match db.users.find? (fun u => u.email == body.email) with
  | none => .error ⟨401, "Invalid credentials"⟩
  | some u =>
    if !(verify_password body.password u.password_hash) then
      .error ⟨401, "Invalid credentials"⟩
    else
      .ok (.valid (create_token jwtExpires u.id u.email u.role now), "bearer")

/-! ## Migrations (src/alembic/versions/0001_init_schema.py and
0002_users_idempotency_keys.py)

A schema state is the list of existing tables and of existing indexes (index
name paired with its table). Dropping a table also drops its remaining
indexes, as the relational engine does. -/

/-- One schema-changing operation issued by a migration. -/
inductive MigOp where
  | createTable (name : String) : MigOp
  | dropTable (name : String) : MigOp
  | createIndex (name : String) (table : String) : MigOp
  | dropIndex (name : String) (table : String) : MigOp
deriving DecidableEq

/-- The schema state: existing tables and existing (index, table) pairs. -/
structure Schema where
  tables : List String
  indexes : List (String × String)
deriving DecidableEq

/-- Apply one migration operation to a schema state. -/
def applyOp (s : Schema) (op : MigOp) : Schema :=
  match op with
  | .createTable n => { s with tables := s.tables ++ [n] }
  | .dropTable n =>
      { tables := s.tables.eraseP (fun t => t == n),
        indexes := s.indexes.filter (fun i => !(i.2 == n)) }
  | .createIndex n t => { s with indexes := s.indexes ++ [(n, t)] }
  | .dropIndex n t => { s with indexes := s.indexes.eraseP (fun i => i.1 == n && i.2 == t) }

/-- Apply a sequence of migration operations in order. -/
def applyOps (s : Schema) (ops : List MigOp) : Schema := ops.foldl applyOp s

/-- The inverse of a single structural operation. -/
def invertOp : MigOp → MigOp
  | .createTable n => .dropTable n
  | .dropTable n => .createTable n
  | .createIndex n t => .dropIndex n t
  | .dropIndex n t => .createIndex n t

/-- The operations of revision 0001's upgrade, in source order. -/
def upgrade0001 : List MigOp :=
  [.createTable "contacts",
   .createIndex "ix_contacts_phone" "contacts",
   .createIndex "ix_contacts_email" "contacts",
   .createIndex "ix_contacts_created_at" "contacts",
   .createTable "products",
   .createIndex "ix_products_sku" "products",
   .createIndex "ix_products_title" "products",
   .createIndex "ix_products_created_at" "products",
   .createTable "variants",
   .createIndex "ix_variants_product_id" "variants",
   .createIndex "ix_variants_created_at" "variants",
   .createTable "orders",
   .createIndex "ix_orders_contact_id" "orders",
   .createIndex "ix_orders_status" "orders",
   .createIndex "ix_orders_created_at" "orders",
   .createIndex "ix_orders_contact_status_created" "orders",
   .createTable "order_items",
   .createIndex "ix_order_items_order_id" "order_items",
   .createIndex "ix_order_items_created_at" "order_items",
   .createTable "interactions",
   .createIndex "ix_interactions_contact_id" "interactions",
   .createIndex "ix_interactions_external_event_id" "interactions",
   .createIndex "ix_interactions_created_at" "interactions",
   .createIndex "ix_interactions_contact_created" "interactions",
   .createTable "payments",
   .createIndex "ix_payments_order_id" "payments",
   .createIndex "ix_payments_status" "payments",
   .createIndex "ix_payments_tx_id" "payments",
   .createIndex "ix_payments_created_at" "payments",
   .createIndex "ix_payments_status_created" "payments",
   .createTable "tasks",
   .createIndex "ix_tasks_contact_id" "tasks",
   .createIndex "ix_tasks_status" "tasks",
   .createIndex "ix_tasks_due_at" "tasks",
   .createIndex "ix_tasks_created_at" "tasks",
   .createTable "customer_stats",
   .createIndex "ix_customer_stats_orders_count" "customer_stats",
   .createIndex "ix_customer_stats_last_order_at" "customer_stats",
   .createTable "event_log",
   .createIndex "ix_event_log_event_type" "event_log",
   .createIndex "ix_event_log_created_at" "event_log"]

/-- The operations of revision 0001's downgrade, in source order. -/
def downgrade0001 : List MigOp :=
  [.dropTable "event_log",
   .dropTable "customer_stats",
   .dropTable "tasks",
   .dropTable "payments",
   .dropTable "interactions",
   .dropTable "order_items",
   .dropTable "orders",
   .dropTable "variants",
   .dropTable "products",
   .dropTable "contacts"]

/-- The operations of revision 0002's upgrade, in source order. -/
def upgrade0002 : List MigOp :=
  [.createTable "users",
   .createIndex "ix_users_email" "users",
   .createIndex "ix_users_role" "users",
   .createIndex "ix_users_created_at" "users",
   .createTable "idempotency_keys",
   .createIndex "ix_idempotency_keys_key" "idempotency_keys",
   .createIndex "ix_idempotency_keys_method" "idempotency_keys",
   .createIndex "ix_idempotency_keys_path" "idempotency_keys",
   .createIndex "ix_idem_key_method_path" "idempotency_keys",
   .createIndex "ix_idempotency_keys_created_at" "idempotency_keys"]

/-- The operations of revision 0002's downgrade, in source order. -/
def downgrade0002 : List MigOp :=
  [.dropIndex "ix_idempotency_keys_created_at" "idempotency_keys",
   .dropIndex "ix_idem_key_method_path" "idempotency_keys",
   .dropIndex "ix_idempotency_keys_path" "idempotency_keys",
   .dropIndex "ix_idempotency_keys_method" "idempotency_keys",
   .dropIndex "ix_idempotency_keys_key" "idempotency_keys",
   .dropTable "idempotency_keys",
   .dropIndex "ix_users_created_at" "users",
   .dropIndex "ix_users_role" "users",
   .dropIndex "ix_users_email" "users",
   .dropTable "users"]

/-- The empty schema. -/
def emptySchema : Schema := ⟨[], []⟩

/-! ## Concrete inputs used by witnesses and counterexamples -/

/-- The order-creation input of the worked example: two line items priced
10.00 times 2 and 5.50 times 1. -/
def exOrderIn : OrderCreateIn :=
  ⟨7, "EUR", [⟨1, 1, 2, ⟨1000, -2⟩, "EUR"⟩, ⟨2, 2, 1, ⟨550, -2⟩, "EUR"⟩]⟩

/-- An empty orders-table state with counters at 1. -/
def exOrdersDB : OrdersDB := ⟨[], [], 1, 1⟩

/-- A payments-side state holding one order with id 1 and status new. -/
def exPayDB : PayDB := ⟨[⟨1, 5, "new", ⟨2000, -2⟩, "EUR", 0⟩], [], 1⟩

/-! ## Helper lemmas (not tied to a single claim) -/

/-- C7: Migration step 2's revert is the exact structural inverse of its apply:
applying both migration steps from the empty schema and then reverting step 2
leaves exactly the tables and indexes created by step 1, with no residual
users or idempotency_keys tables or any of their indexes; step 2 creates two
tables and eight indexes, and its downgrade issues exactly the inverse
operations in reverse order. -/
theorem C7_migration_reversibility :
    applyOps (applyOps (applyOps emptySchema upgrade0001) upgrade0002) downgrade0002 =
      applyOps emptySchema upgrade0001 ∧
    downgrade0002 = (upgrade0002.map invertOp).reverse ∧
    ((applyOps (applyOps (applyOps emptySchema upgrade0001) upgrade0002)
        downgrade0002).tables.contains "users") = false ∧
    ((applyOps (applyOps (applyOps emptySchema upgrade0001) upgrade0002)
        downgrade0002).tables.contains "idempotency_keys") = false ∧
    ((applyOps (applyOps (applyOps emptySchema upgrade0001) upgrade0002)
        downgrade0002).indexes.countP
      (fun i => i.2 == "users" || i.2 == "idempotency_keys")) = 0 ∧
    (applyOps (applyOps emptySchema upgrade0001) upgrade0002).tables.length =
      (applyOps emptySchema upgrade0001).tables.length + 2 ∧
    (applyOps (applyOps emptySchema upgrade0001) upgrade0002).indexes.length =
      (applyOps emptySchema upgrade0001).indexes.length + 8 := by
  decide

/-- C2: POST /orders computes the order total as the exact decimal sum of
price times qty over all items by a left fold starting from 0.00, creates the
Order with status new and the fresh id, and creates one OrderItem per input
item referencing that id; the response renders the total as a decimal
string. -/
theorem C2_create_order_total (body : OrderCreateIn) (db : OrdersDB) (now : Nat)
    (_hne : body.items ≠ []) :
    (create_order body db now).2.status = "new" ∧
    (create_order body db now).2.id = db.nextOrderId ∧
    (create_order body db now).2.total = decimalStr2 (calc_total body.items) ∧
    calc_total body.items =
      body.items.foldl (fun acc i => acc.add (i.price.mul ⟨(i.qty : Int), 0⟩)) ⟨0, -2⟩ ∧
    (create_order body db now).1.orders = db.orders ++
      [⟨db.nextOrderId, body.contact_id, "new", calc_total body.items, body.currency, now⟩] ∧
    (create_order body db now).1.items = db.items ++ body.items.enum.map (fun ji =>
      (⟨db.nextItemId + ji.1, db.nextOrderId, ji.2.product_id, ji.2.variant_id, ji.2.qty,
        ji.2.price⟩ : OrderItemRec)) ∧
    (create_order body db now).1.items.length = db.items.length + body.items.length := by
  refine ⟨rfl, rfl, rfl, rfl, rfl, rfl, ?_⟩
  simp [create_order]

/-- Witness for C2 at the worked example: items priced 10.00 times 2 and 5.50
times 1 give status new and total rendered as the string 25.50. -/
theorem C2_create_order_total_witness :
    exOrderIn.items ≠ [] ∧
    (create_order exOrderIn exOrdersDB 0).2.status = "new" ∧
    (create_order exOrderIn exOrdersDB 0).2.total = decimalStr2 (calc_total exOrderIn.items) ∧
    decimalStr2 (calc_total exOrderIn.items) = "25.50" := by
  have h := C2_create_order_total exOrderIn exOrdersDB 0 (by decide)
  exact ⟨by decide, h.1, h.2.2.1, by decide⟩

/-- C3: POST /payments fails with 404 and creates nothing when the referenced
order is absent; otherwise it creates the Payment and sets the parent order's
status to paid exactly when the input status is paid, in the same unit of
work; a non-paid input status leaves the orders table unchanged. -/
theorem C3_create_payment_effect (body : PaymentCreateIn) (db : PayDB) :
    (db.orders.find? (fun o => o.id == body.order_id) = none →
      create_payment body db = .error ⟨404, "Order not found"⟩) ∧
    (∀ o, db.orders.find? (fun o => o.id == body.order_id) = some o →
      create_payment body db = .ok
        (⟨(if body.status == "paid" then
             db.orders.map (fun x => if x.id == body.order_id then
               { x with status := "paid" } else x)
           else db.orders),
          db.payments ++ [⟨db.nextPaymentId, body.order_id, body.status, body.amount,
            body.currency, body.provider, none, none⟩],
          db.nextPaymentId + 1⟩,
         ⟨db.nextPaymentId, body.order_id, body.status, decimalStr2 body.amount,
          body.currency, body.provider, none, none⟩)) ∧
    (body.status ≠ "paid" → ∀ o, db.orders.find? (fun o => o.id == body.order_id) = some o →
      ∀ db2 out, create_payment body db = .ok (db2, out) → db2.orders = db.orders) := by
  refine ⟨?_, ?_, ?_⟩
  · intro h
    simp [create_payment, h]
  · intro o h
    simp [create_payment, h]
  · intro hne o h db2 out hok
    simp only [create_payment, h] at hok
    rw [show (body.status == "paid") = false from beq_eq_false_iff_ne.mpr hne] at hok
    simp only [Bool.false_eq_true, if_false, Except.ok.injEq, Prod.mk.injEq] at hok
    rw [← hok.1]

/-- Witness for C3: against a state holding order 1 with status new, a paid
payment flips the order to paid, a pending payment leaves it at new, and a
payment against the missing order 9 yields 404. -/
theorem C3_create_payment_effect_witness :
    create_payment ⟨1, ⟨2000, -2⟩, "EUR", none, "paid"⟩ exPayDB =
      .ok (⟨[⟨1, 5, "paid", ⟨2000, -2⟩, "EUR", 0⟩],
            [⟨1, 1, "paid", ⟨2000, -2⟩, "EUR", none, none, none⟩], 2⟩,
           ⟨1, 1, "paid", "20.00", "EUR", none, none, none⟩) ∧
    create_payment ⟨1, ⟨2000, -2⟩, "EUR", none, "pending"⟩ exPayDB =
      .ok (⟨[⟨1, 5, "new", ⟨2000, -2⟩, "EUR", 0⟩],
            [⟨1, 1, "pending", ⟨2000, -2⟩, "EUR", none, none, none⟩], 2⟩,
           ⟨1, 1, "pending", "20.00", "EUR", none, none, none⟩) ∧
    create_payment ⟨9, ⟨2000, -2⟩, "EUR", none, "paid"⟩ exPayDB =
      .error ⟨404, "Order not found"⟩ := by
  refine ⟨?_, ?_, ?_⟩
  · have h := (C3_create_payment_effect ⟨1, ⟨2000, -2⟩, "EUR", none, "paid"⟩ exPayDB).2.1
      ⟨1, 5, "new", ⟨2000, -2⟩, "EUR", 0⟩ rfl
    rw [h]; rfl
  · have h := (C3_create_payment_effect ⟨1, ⟨2000, -2⟩, "EUR", none, "pending"⟩ exPayDB).2.1
      ⟨1, 5, "new", ⟨2000, -2⟩, "EUR", 0⟩ rfl
    rw [h]; rfl
  · exact (C3_create_payment_effect ⟨9, ⟨2000, -2⟩, "EUR", none, "paid"⟩ exPayDB).1 rfl

/-- C5: the issued token's payload consists exactly of sub (the user id as a
string), email, role, iat (the issuance instant) and exp, with exp equal to
iat plus the configured lifetime, whose default is 86400 seconds; verifying a
token whose exp is in the past fails with an invalid-token condition. -/
theorem C5_token_lifecycle (env : Option Nat) (uid : Nat) (email role : String) (now : Nat) :
    create_token (JWT_EXPIRES env) uid email role now =
      ⟨toString uid, email, role, now, now + JWT_EXPIRES env⟩ ∧
    (create_token (JWT_EXPIRES env) uid email role now).exp =
      (create_token (JWT_EXPIRES env) uid email role now).iat + JWT_EXPIRES env ∧
    JWT_EXPIRES none = 86400 ∧
    (∀ p : TokenPayload, ∀ t : Nat, p.exp < t → decode_token (.valid p) t = .error "token expired") := by
  refine ⟨rfl, rfl, rfl, ?_⟩
  intro p t hlt
  simp [decode_token, hlt]

/-- Witness for C5: a token minted at time 1000 under the default lifetime
expires at 87400, and verifying it at time 87401 fails. -/
theorem C5_token_lifecycle_witness :
    create_token (JWT_EXPIRES none) 7 "a@b.c" "agent" 1000 =
      ⟨"7", "a@b.c", "agent", 1000, 87400⟩ ∧
    decode_token (.valid (create_token (JWT_EXPIRES none) 7 "a@b.c" "agent" 1000)) 87401 =
      .error "token expired" := by
  have h := C5_token_lifecycle none 7 "a@b.c" "agent" 1000
  exact ⟨h.1, h.2.2.2 _ 87401 (by decide)⟩

/-- When none of the three assignment guards of update_order fires, the
fetched order is returned unmodified. -/
theorem applyOrderUpdate_of_not_changed (body : OrderUpdateIn) (o : OrderRec)
    (h : orderUpdateChanged body = false) : applyOrderUpdate body o = o := by
  rcases body with ⟨bs, bt, bc⟩
  rcases bs with _ | s <;> rcases bt with _ | t <;> rcases bc with _ | c <;>
    simp_all [orderUpdateChanged, truthyStr, applyOrderUpdate]

/-- C8: PUT /orders is a partial update: when the order is missing it fails
with 404 and changes nothing; when found, id, contact_id and created_at are
never touched, each of status, total and currency changes only when supplied
(status and currency only when supplied non-empty), and a commit happens
exactly when at least one of the three assignment guards fired, the stored
table differing only at the updated row. -/
theorem C8_update_order_frame (order_id : Nat) (body : OrderUpdateIn) (db : OrdersDB) :
    (db.orders.find? (fun o => o.id == order_id) = none →
      update_order order_id body db = .error ⟨404, "Order not found"⟩) ∧
    (∀ o, db.orders.find? (fun o => o.id == order_id) = some o →
      update_order order_id body db = .ok
        ((if orderUpdateChanged body then
            { db with orders := db.orders.map (fun x => if x.id == order_id then
                applyOrderUpdate body o else x) }
          else db),
         orderUpdateChanged body,
         ⟨(applyOrderUpdate body o).id, (applyOrderUpdate body o).status,
          decimalStr2 (applyOrderUpdate body o).total, (applyOrderUpdate body o).currency⟩)) ∧
    (∀ o,
      (applyOrderUpdate body o).id = o.id ∧
      (applyOrderUpdate body o).contact_id = o.contact_id ∧
      (applyOrderUpdate body o).created_at = o.created_at ∧
      (body.status = none → (applyOrderUpdate body o).status = o.status) ∧
      (body.total = none → (applyOrderUpdate body o).total = o.total) ∧
      (body.currency = none → (applyOrderUpdate body o).currency = o.currency) ∧
      (∀ s, body.status = some s → s ≠ "" → (applyOrderUpdate body o).status = s) ∧
      (∀ t, body.total = some t → (applyOrderUpdate body o).total = t) ∧
      (∀ c, body.currency = some c → c ≠ "" → (applyOrderUpdate body o).currency = c)) ∧
    (orderUpdateChanged body = false → ∀ o, db.orders.find? (fun o => o.id == order_id) = some o →
      update_order order_id body db = .ok (db, false, ⟨o.id, o.status, decimalStr2 o.total, o.currency⟩)) := by
  refine ⟨?_, ?_, ?_, ?_⟩
  · intro h
    simp [update_order, h]
  · intro o h
    simp [update_order, h]
  · intro o
    rcases body with ⟨bs, bt, bc⟩
    rcases bs with _ | s <;> rcases bt with _ | t <;> rcases bc with _ | c <;>
      refine ⟨?_, ?_, ?_, ?_, ?_, ?_, ?_, ?_, ?_⟩ <;>
      intros <;> simp_all [applyOrderUpdate] <;> split_ifs <;> simp_all
  · intro hnc o h
    simp [update_order, h, hnc, applyOrderUpdate_of_not_changed body o hnc]

/-- Witness for C8: updating only the status of the stored order 1 changes
status alone and commits; an empty update commits nothing; order 9 is 404. -/
theorem C8_update_order_frame_witness :
    update_order 1 ⟨some "paid", none, none⟩ ⟨[⟨1, 7, "new", ⟨1000, -2⟩, "EUR", 3⟩], [], 2, 1⟩ =
      .ok (⟨[⟨1, 7, "paid", ⟨1000, -2⟩, "EUR", 3⟩], [], 2, 1⟩, true, ⟨1, "paid", "10.00", "EUR"⟩) ∧
    update_order 1 ⟨none, none, none⟩ ⟨[⟨1, 7, "new", ⟨1000, -2⟩, "EUR", 3⟩], [], 2, 1⟩ =
      .ok (⟨[⟨1, 7, "new", ⟨1000, -2⟩, "EUR", 3⟩], [], 2, 1⟩, false, ⟨1, "new", "10.00", "EUR"⟩) ∧
    update_order 9 ⟨some "paid", none, none⟩ ⟨[⟨1, 7, "new", ⟨1000, -2⟩, "EUR", 3⟩], [], 2, 1⟩ =
      .error ⟨404, "Order not found"⟩ := by
  refine ⟨?_, ?_, ?_⟩
  · have h := (C8_update_order_frame 1 ⟨some "paid", none, none⟩
      ⟨[⟨1, 7, "new", ⟨1000, -2⟩, "EUR", 3⟩], [], 2, 1⟩).2.1 ⟨1, 7, "new", ⟨1000, -2⟩, "EUR", 3⟩ rfl
    rw [h]; rfl
  · have h := (C8_update_order_frame 1 ⟨none, none, none⟩
      ⟨[⟨1, 7, "new", ⟨1000, -2⟩, "EUR", 3⟩], [], 2, 1⟩).2.2.2 rfl
      ⟨1, 7, "new", ⟨1000, -2⟩, "EUR", 3⟩ rfl
    rw [h]; rfl
  · exact (C8_update_order_frame 9 ⟨some "paid", none, none⟩
      ⟨[⟨1, 7, "new", ⟨1000, -2⟩, "EUR", 3⟩], [], 2, 1⟩).1 rfl

/-- C10: registration stores any role string verbatim (no validation against
the recognized set), the new user can log in and obtain a token carrying that
role, and every role gate whose allowed set excludes the role rejects the
user with 403 Forbidden. -/
theorem C10_register_any_role (body : RegisterIn) (caller : UserRec) (db : AuthDB)
    (salt : String) (jwtExpires now : Nat)
    (hOwner : caller.role = "owner")
    (hFresh : db.users.find? (fun u => u.email == body.email) = none) :
    register body caller db salt =
      .ok (⟨db.users ++ [⟨db.nextUserId, body.email, hash_password salt body.password, body.role⟩],
            db.nextUserId + 1⟩,
           ⟨db.nextUserId, body.email, body.role⟩) ∧
    login ⟨body.email, body.password⟩
        ⟨db.users ++ [⟨db.nextUserId, body.email, hash_password salt body.password, body.role⟩],
         db.nextUserId + 1⟩ jwtExpires now =
      .ok (.valid (create_token jwtExpires db.nextUserId body.email body.role now), "bearer") ∧
    (∀ roles : List String, roles.contains body.role = false →
      require_role roles ⟨db.nextUserId, body.email, hash_password salt body.password, body.role⟩ =
        .error ⟨403, "Forbidden"⟩) := by
  refine ⟨?_, ?_, ?_⟩
  · simp [register, require_role, hOwner, hFresh]
  · simp [login, hFresh, verify_password, hash_password]
  · intro roles hr
    have hmem : body.role ∉ roles := by simpa using hr
    simp [require_role, hmem]

/-- Witness for C10: an owner registers a user with the unrecognized role
banana; that user logs in and obtains a token, and the gate allowing owner,
manager and agent rejects the user with 403. -/
theorem C10_register_any_role_witness :
    register ⟨"x@y.z", "pw", "banana"⟩ ⟨1, "o@y.z", ⟨"s0", "opw"⟩, "owner"⟩ ⟨[], 2⟩ "s1" =
      .ok (⟨[⟨2, "x@y.z", ⟨"s1", "pw"⟩, "banana"⟩], 3⟩, ⟨2, "x@y.z", "banana"⟩) ∧
    login ⟨"x@y.z", "pw"⟩ ⟨[⟨2, "x@y.z", ⟨"s1", "pw"⟩, "banana"⟩], 3⟩ 86400 1000 =
      .ok (.valid ⟨"2", "x@y.z", "banana", 1000, 87400⟩, "bearer") ∧
    require_role ["owner", "manager", "agent"] ⟨2, "x@y.z", ⟨"s1", "pw"⟩, "banana"⟩ =
      .error ⟨403, "Forbidden"⟩ := by
  have h := C10_register_any_role ⟨"x@y.z", "pw", "banana"⟩ ⟨1, "o@y.z", ⟨"s0", "opw"⟩, "owner"⟩
    ⟨[], 2⟩ "s1" 86400 1000 rfl rfl
  exact ⟨h.1, h.2.1, h.2.2 ["owner", "manager", "agent"] (by decide)⟩

/-- C4 counterexample: a GET /contacts request with limit 500 is not answered
with a clamped result list; the declared le constraint makes request
validation reject it with a 422 client error. -/
theorem C4_counterexample :
    list_contacts [⟨1, some "Alice", none, none, none, 0⟩] none (some 500) none =
      .error ⟨422, "Input should be less than or equal to 200"⟩ := by
  rfl

/-- C4 as the code has it: limit defaults to 50 and offset to 0; a limit of
at most 200 is accepted and bounds the number of returned rows; a limit
above 200 is rejected by validation with a 422 error rather than clamped. -/
theorem C4_list_contacts_pagination (contacts : List ContactRec) (q : Option String)
    (rawOffset : Option Int) (v : Int) :
    limitParam none = .ok 50 ∧
    offsetParam none = 0 ∧
    (v ≤ 200 → limitParam (some v) = .ok v) ∧
    (200 < v → list_contacts contacts q (some v) rawOffset =
      .error ⟨422, "Input should be less than or equal to 200"⟩) ∧
    (∀ res, list_contacts contacts q (some v) rawOffset = .ok res → res.length ≤ v.toNat) ∧
    (∀ res, list_contacts contacts q none rawOffset = .ok res → res.length ≤ 50) := by
  refine ⟨rfl, rfl, ?_, ?_, ?_, ?_⟩
  · intro hv
    simp [limitParam, hv]
  · intro hv
    simp [list_contacts, limitParam, not_le.mpr hv]
  · intro res heq
    by_cases hv : v ≤ 200
    · simp [list_contacts, limitParam, hv] at heq
      rw [← heq]
      simp [List.length_take]
    · simp [list_contacts, limitParam, hv] at heq
  · intro res heq
    simp [list_contacts, limitParam] at heq
    rw [← heq]
    simp [List.length_take]

/-- Witness for C4: with one stored contact, the default call returns it, a
limit of 500 is rejected with 422, and a limit of 200 is accepted. -/
theorem C4_list_contacts_pagination_witness :
    limitParam none = .ok 50 ∧
    limitParam (some 200) = .ok 200 ∧
    list_contacts [⟨1, some "Alice", none, none, none, 0⟩] none (some 500) none =
      .error ⟨422, "Input should be less than or equal to 200"⟩ ∧
    (∀ res, list_contacts [⟨1, some "Alice", none, none, none, 0⟩] none (some 200) none =
      .ok res → res.length ≤ 200) := by
  have h := C4_list_contacts_pagination [⟨1, some "Alice", none, none, none, 0⟩] none none 500
  have h2 := C4_list_contacts_pagination [⟨1, some "Alice", none, none, none, 0⟩] none none 200
  exact ⟨h.1, h2.2.2.1 (by decide), h.2.2.2.1 (by decide),
    fun res hres => h2.2.2.2.2.1 res hres⟩

/-- C6 counterexample: with no bearer token on the request, current-user
resolution aborts with the bearer scheme's 403 Not authenticated, which is
not the 401 the claim asserts for the absent-token case. -/
theorem C6_counterexample :
    get_current_user none [] 0 = .error ⟨403, "Not authenticated"⟩ ∧ (403 : Nat) ≠ 401 := by
  exact ⟨rfl, by decide⟩

/-- C6 as the code has it: an absent bearer credential aborts with 403 Not
authenticated (raised by the bearer scheme); a malformed or badly signed
token and an expired token abort with 401 Invalid token; a decoded subject
matching no user aborts with 401 User not found; otherwise the user record
is returned. -/
theorem C6_current_user_resolution (users : List UserRec) (now : Nat) :
    get_current_user none users now = .error ⟨403, "Not authenticated"⟩ ∧
    get_current_user (some .invalid) users now = .error ⟨401, "Invalid token"⟩ ∧
    (∀ p : TokenPayload, p.exp < now →
      get_current_user (some (.valid p)) users now = .error ⟨401, "Invalid token"⟩) ∧
    (∀ p : TokenPayload, ¬ p.exp < now → ∀ sid : Int, int_of_string p.sub = some sid →
      users.find? (fun u => (u.id : Int) == sid) = none →
      get_current_user (some (.valid p)) users now = .error ⟨401, "User not found"⟩) ∧
    (∀ p : TokenPayload, ¬ p.exp < now → ∀ sid : Int, int_of_string p.sub = some sid →
      ∀ u, users.find? (fun u => (u.id : Int) == sid) = some u →
      get_current_user (some (.valid p)) users now = .ok u) := by
  refine ⟨rfl, rfl, ?_, ?_, ?_⟩
  · intro p hexp
    simp [get_current_user, bearer_scheme, decode_token, hexp]
  · intro p hexp sid hsid hfind
    simp [get_current_user, bearer_scheme, decode_token, hexp, hsid, hfind]
  · intro p hexp sid hsid u hfind
    simp [get_current_user, bearer_scheme, decode_token, hexp, hsid, hfind]

/-- Witness for C6: a fresh valid token for stored user 7 resolves to that
user; the same token after expiry, an invalid token, a valid token for the
deleted user 9, and an absent credential all abort with the stated errors. -/
theorem C6_current_user_resolution_witness :
    get_current_user (some (.valid ⟨"7", "a@b.c", "agent", 0, 100⟩))
        [⟨7, "a@b.c", ⟨"s", "pw"⟩, "agent"⟩] 50 = .ok ⟨7, "a@b.c", ⟨"s", "pw"⟩, "agent"⟩ ∧
    get_current_user (some (.valid ⟨"7", "a@b.c", "agent", 0, 100⟩))
        [⟨7, "a@b.c", ⟨"s", "pw"⟩, "agent"⟩] 200 = .error ⟨401, "Invalid token"⟩ ∧
    get_current_user (some .invalid) [⟨7, "a@b.c", ⟨"s", "pw"⟩, "agent"⟩] 50 =
      .error ⟨401, "Invalid token"⟩ ∧
    get_current_user (some (.valid ⟨"9", "x@b.c", "agent", 0, 100⟩))
        [⟨7, "a@b.c", ⟨"s", "pw"⟩, "agent"⟩] 50 = .error ⟨401, "User not found"⟩ ∧
    get_current_user none [⟨7, "a@b.c", ⟨"s", "pw"⟩, "agent"⟩] 50 =
      .error ⟨403, "Not authenticated"⟩ := by
  have h50 := C6_current_user_resolution [⟨7, "a@b.c", ⟨"s", "pw"⟩, "agent"⟩] 50
  have h200 := C6_current_user_resolution [⟨7, "a@b.c", ⟨"s", "pw"⟩, "agent"⟩] 200
  refine ⟨?_, ?_, h50.2.1, ?_, h50.1⟩
  · exact h50.2.2.2.2 ⟨"7", "a@b.c", "agent", 0, 100⟩ (by decide) 7 (by decide)
      ⟨7, "a@b.c", ⟨"s", "pw"⟩, "agent"⟩ rfl
  · exact h200.2.2.1 ⟨"7", "a@b.c", "agent", 0, 100⟩ (by decide)
  · exact h50.2.2.2.1 ⟨"9", "x@b.c", "agent", 0, 100⟩ (by decide) 9 (by decide) rfl

